import Mathlib

/-!
Shallow embedding of the customer-retention pipeline in `src/app.py`.

External effects (the OpenAI chat-completion calls and the SMTP transport)
are modelled as oracle parameters: an `Except` value standing for the
outcome of the network call (`.error e` = any exception raised during the
call or while parsing its response, carrying `str(e)`), and a function
from the resolved endpoint and recipient to an `SmtpOutcome` standing for
what the smtplib session does.  Everything the Python code itself computes
is translated directly.
-/

namespace CustomerRetention

/-- Python truthiness test `not s` for an optional environment string
(`os.getenv` returns `None` when unset; the empty string is also falsy). -/
def isBlank : Option String → Bool
  | none => true
  | some s => s == ""

/-- Python substring containment `pat in s`. -/
def strContains (s pat : String) : Bool := decide (pat.data <:+: s.data)

/-- Python `str.strip()`: drop whitespace from both ends. -/
def pyStrip (s : String) : String :=
  ⟨((s.data.dropWhile Char.isWhitespace).reverse.dropWhile Char.isWhitespace).reverse⟩

/-- Python `str.lower()`. -/
def pyLower (s : String) : String := ⟨s.data.map Char.toLower⟩

/-- Python `f"{n:03d}"` zero padding used for generated customer ids. -/
def pad3 (n : Nat) : String :=
  let s := toString n
  ⟨List.replicate (3 - s.length) '0'⟩ ++ s

/-- One entry of `RETENTION_OFFERS` (src/app.py lines 46-83). -/
structure Offer where
  offer_code : String
  offer_name : String
  description : String
  target_reasons : List String
deriving Repr, DecidableEq

/-- The static offer catalog, copied from src/app.py lines 46-83. -/
def RETENTION_OFFERS : List Offer := [
  { offer_code := "PRICE_DISC_20",
    offer_name := "20% Discount for 6 Months",
    description := "20% discount on subscription for the next 6 months",
    target_reasons := ["too expensive", "price", "cost", "budget", "affordability"] },
  { offer_code := "PRICE_DISC_30",
    offer_name := "30% Discount for 3 Months",
    description := "30% discount on subscription for the next 3 months",
    target_reasons := ["too expensive", "price", "cost", "budget", "affordability", "expensive"] },
  { offer_code := "FEATURE_UPGRADE",
    offer_name := "Free Feature Upgrade",
    description := "Upgrade to premium tier with additional features at no extra cost",
    target_reasons := ["missing features", "need more features", "limited functionality", "features"] },
  { offer_code := "TRIAL_EXTEND",
    offer_name := "Extended Free Trial",
    description := "Additional 30 days free trial to explore the platform",
    target_reasons := ["not sure", "need more time", "trial", "testing", "evaluating"] },
  { offer_code := "SUPPORT_PRIORITY",
    offer_name := "Priority Support Access",
    description := "Dedicated support team and faster response times",
    target_reasons := ["support", "customer service", "help", "assistance", "response time"] },
  { offer_code := "CUSTOM_SOLUTION",
    offer_name := "Custom Solution Consultation",
    description := "Free consultation to create a customized solution for your needs",
    target_reasons := ["doesn\u0027t fit", "not suitable", "custom", "specific needs", "requirements"] }
]

/-- `get_offers_database` (src/app.py lines 85-94): textual rendering of the catalog. -/
def get_offers_database : String :=
  RETENTION_OFFERS.foldl
    (fun acc offer =>
      acc ++ "OFFER_CODE: " ++ offer.offer_code ++ "\n"
          ++ "OFFER_NAME: " ++ offer.offer_name ++ "\n"
          ++ "DESCRIPTION: " ++ offer.description ++ "\n"
          ++ "TARGET_REASONS: " ++ String.intercalate ", " offer.target_reasons ++ "\n"
          ++ "\n---\n\n")
    "AVAILABLE RETENTION OFFERS:\n\n"

/-- Is `c` the code of some catalog entry? -/
def codeInCatalog (c : String) : Bool :=
  (RETENTION_OFFERS.map Offer.offer_code).contains c

/-- The parsed JSON object returned by the matcher's chat call
(`json.loads(response...)` at src/app.py line 145), viewed through the
`.get` accesses the rest of the program performs: each field is `none`
when the key is absent (or JSON `null`). -/
structure MatchResultJson where
  OFFER_CODE : Option String
  OFFER_NAME : Option String
  MATCH_REASONING : Option String
deriving Repr, DecidableEq

/-- Outcome of the matcher's chat-completion call (including JSON parsing):
`.ok` carries the parsed object, `.error` carries `str(e)` of any exception. -/
abbrev MatcherCall := String → String → Except String MatchResultJson

/-- `offer_matcher_agent` (src/app.py lines 96-153).  The prompt text is
consumed by the oracle; what the Python function itself does is: return the
parsed response on success, and on any exception return the fixed
`NO_MATCH` object whose reasoning embeds `str(e)`. -/
def offer_matcher_agent (call : MatcherCall)
    (cancellation_reason offers_db : String) : MatchResultJson :=
  match call cancellation_reason offers_db with
  | .ok result => result
  | .error e =>
    { OFFER_CODE := some "NO_MATCH",
      OFFER_NAME := some "None",
      MATCH_REASONING := some ("Error occurred: " ++ e) }

/-- Outcome of the writer's chat-completion call: `.ok` carries
`response.choices[0].message.content`, `.error` carries `str(e)`.  The
oracle receives the three pieces of the user message (matched offer text,
cancellation reason, customer email). -/
abbrev WriterCall := String → String → String → Except String String

/-- `email_writer_agent` (src/app.py lines 155-205): returns the stripped
response content on success, an error-marked string on any exception. -/
def email_writer_agent (call : WriterCall)
    (matched_offer cancellation_reason customer_email : String) : String :=
  match call matched_offer cancellation_reason customer_email with
  | .ok content => pyStrip content
  | .error e => "Error occurred while generating email: " ++ e

/-- The matched-offer f-string built at src/app.py lines 405 and 587 from
the OFFER_CODE and OFFER_NAME fields: `.get` without a default renders a
missing key (or a `None` value) as the text `None`. -/
def matched_offer_text (m : MatchResultJson) : String :=
  m.OFFER_CODE.getD "None" ++ " - " ++ m.OFFER_NAME.getD "None"

/-- `is_match` as computed at src/app.py lines 420 and 595. -/
def is_match_of (m : MatchResultJson) (email_content : String) : Bool :=
  (m.OFFER_CODE.getD "NO_MATCH" != "NO_MATCH") && (email_content != "NO_MATCH")

/-- The environment configuration read by `send_email` and
`send_team_notification` (src/app.py lines 210, 240-243).  `SMTP_PORT` is
modelled as the already-converted integer value of the variable; a value
that would make `int(...)` raise is out of scope of the claims. -/
structure EnvConfig where
  SENDER_EMAIL : Option String
  SENDER_PASSWORD : Option String
  SMTP_SERVER : Option String
  SMTP_PORT : Option Nat
deriving Repr, DecidableEq

/-- Outcome of the smtplib session for one dispatch attempt (src/app.py
lines 279-300): `sent errs` is a completed `sendmail` call returning the
per-recipient error dict `errs` (empty = full success);
the other constructors are the exception classes caught at lines 293-300. -/
inductive SmtpOutcome where
  | sent (send_errors : List (String × String))
  | authError (e : String)
  | smtpError (e : String)
  | otherError (ty msg : String)
deriving Repr, DecidableEq

/-- The mail relay as an oracle: server, port, recipient to outcome. -/
abbrev Transport := String → Nat → String → SmtpOutcome

/-- The custom-domain refusal message of src/app.py line 266. -/
def custom_domain_message (sender_email : String) : String :=
  "Custom email domain detected (" ++ sender_email
    ++ "). Please set SMTP_SERVER and SMTP_PORT in .env file. For Gmail-hosted custom domains, use smtp.gmail.com:587"

/-- Endpoint resolution, src/app.py lines 252-269: explicit `SMTP_SERVER`
wins; otherwise a provider endpoint is picked by substring containment on
the lowercased sender address; otherwise the custom-domain error message
is returned (in `send_email` this is a direct `return False, msg`). -/
def resolveTransport (cfg : EnvConfig) (sender_email : String) : Except String (String × Nat) :=
  if isBlank cfg.SMTP_SERVER then
    if strContains (pyLower sender_email) "gmail.com" then
      .ok ("smtp.gmail.com", cfg.SMTP_PORT.getD 587)
    else if strContains (pyLower sender_email) "outlook.com"
        || strContains (pyLower sender_email) "hotmail.com" then
      .ok ("smtp-mail.outlook.com", cfg.SMTP_PORT.getD 587)
    else if strContains (pyLower sender_email) "yahoo.com" then
      .ok ("smtp.mail.yahoo.com", cfg.SMTP_PORT.getD 587)
    else
      .error (custom_domain_message sender_email)
  else
    .ok (cfg.SMTP_SERVER.getD "", cfg.SMTP_PORT.getD 587)

/-- `send_email` (src/app.py lines 236-300).  The smtplib calls are the
oracle; every exception the Python code can see is a constructor of
`SmtpOutcome`, so the function is total and returns a `(success, message)`
pair on every input, as the source does via its `except` clauses. -/
def send_email (cfg : EnvConfig) (transport : Transport)
    (to_email subject body : String) : Bool × String :=
  if isBlank cfg.SENDER_EMAIL || isBlank cfg.SENDER_PASSWORD then
    (false, "Email configuration missing. Please set SENDER_EMAIL and SENDER_PASSWORD in .env file")
  else
    let sender_email := cfg.SENDER_EMAIL.getD ""
    if !strContains to_email "@" || !strContains sender_email "@" then
      (false, "Invalid email format. To: " ++ to_email ++ ", From: " ++ sender_email)
    else
      match resolveTransport cfg sender_email with
      | .error msg => (false, msg)
      | .ok (server, port) =>
        match transport server port to_email with
        | .sent send_errors =>
          if send_errors.isEmpty then
            (true, "Email sent successfully to " ++ to_email ++ "! Check your inbox (and spam folder).")
          else
            (false, "Email sending reported errors: " ++ reprStr send_errors)
        | .authError e =>
          (false, "Authentication failed: " ++ e
            ++ ". Check your email and password. For Gmail, use an App Password. For custom domains, verify SMTP credentials.")
        | .smtpError e =>
          (false, "SMTP error: " ++ e ++ ". Check SMTP_SERVER and SMTP_PORT settings.")
        | .otherError ty msg =>
          (false, "Error sending email (" ++ ty ++ "): " ++ msg
            ++ ". Verify your email configuration in .env file.")

/-- The fixed body template of the team notification (src/app.py lines 216-228). -/
def team_notification_body (customer_id customer_email date_cancelled : String) : String :=
  "A customer cancellation was detected but no matching retention offer was found.\n\nPlease review manually:\n\nCustomer\u0027s ID: "
    ++ customer_id ++ "\n\nEmail: " ++ customer_email ++ "\n\nDate Cancelled: "
    ++ date_cancelled ++ "\n\n\nThank you,\n"

/-- `send_team_notification` (src/app.py lines 207-234): the team address
is `SENDER_EMAIL` itself; when it is unset the function returns early. -/
def send_team_notification (cfg : EnvConfig) (transport : Transport)
    (customer_id customer_email date_cancelled : String) : Bool × String :=
  if isBlank cfg.SENDER_EMAIL then
    (false, "SENDER_EMAIL not set in .env file")
  else
    send_email cfg transport (cfg.SENDER_EMAIL.getD "")
      "Manual Review Required - Customer Cancellation"
      (team_notification_body customer_id customer_email date_cancelled)

/-- The `st.session_state.processed_data` dict built at src/app.py
lines 423-431. -/
structure ProcessedData where
  customer_id : String
  customer_email : String
  cancellation_reason : String
  date_cancelled : String
  match_result : MatchResultJson
  email_content : String
  is_match : Bool
deriving Repr, DecidableEq

/-- The pieces of `st.session_state` the single-record workflow touches
(src/app.py lines 304-309). -/
structure SessionState where
  processed_data : Option ProcessedData
  email_sent : Bool
  team_notification_sent : Bool
deriving Repr, DecidableEq

/-- The single-record form handler, src/app.py lines 366-431: when the
form was submitted with a non-empty reason, both send flags are reset and
`processed_data` is replaced with the freshly computed workflow result;
otherwise the state is untouched. -/
def handle_submission (st : SessionState) (submitted : Bool)
    (mcall : MatcherCall) (wcall : WriterCall)
    (customer_id customer_email cancellation_reason date_cancelled : String) : SessionState :=
  if submitted && cancellation_reason != "" then
    let match_result := offer_matcher_agent mcall cancellation_reason get_offers_database
    let email_content :=
      email_writer_agent wcall (matched_offer_text match_result) cancellation_reason customer_email
    { processed_data := some
        { customer_id := customer_id,
          customer_email := customer_email,
          cancellation_reason := cancellation_reason,
          date_cancelled := date_cancelled,
          match_result := match_result,
          email_content := email_content,
          is_match := is_match_of match_result email_content },
      email_sent := false,
      team_notification_sent := false }
  else st

/-- One CSV input row (src/app.py lines 560-576): required columns
`Email` and `Cancellation Reason`; the optional columns are `none` when
absent or NaN. -/
structure CsvRow where
  Email : String
  CancellationReason : String
  CustomerID : Option String
  DateCancelled : Option String
deriving Repr, DecidableEq

/-- One entry of the `results` list built at src/app.py lines 597-607. -/
structure ResultRow where
  CustomerID : String
  Email : String
  DateCancelled : String
  CancellationReason : String
  OfferCode : String
  OfferName : String
  MatchFound : String
  EmailContent : String
  EmailSent : Bool
deriving Repr, DecidableEq

/-- Processing of one CSV row, src/app.py lines 560-607: trims the email
and reason, defaults the id to `CUST-` with the zero-padded 1-based row
index and the date to today, runs the matcher, builds the matched-offer
text, runs the writer, and records the row with `Email Sent` false. -/
def process_csv_row (mcall : MatcherCall) (wcall : WriterCall)
    (today : String) (idx : Nat) (row : CsvRow) : ResultRow :=
  let customer_email := pyStrip row.Email
  let cancellation_reason := pyStrip row.CancellationReason
  let customer_id :=
    match row.CustomerID with
    | some v => pyStrip v
    | none => "CUST-" ++ pad3 (idx + 1)
  let date_cancelled := row.DateCancelled.getD today
  let match_result := offer_matcher_agent mcall cancellation_reason get_offers_database
  let email_content :=
    email_writer_agent wcall (matched_offer_text match_result) cancellation_reason customer_email
  { CustomerID := customer_id,
    Email := customer_email,
    DateCancelled := date_cancelled,
    CancellationReason := cancellation_reason,
    OfferCode := match_result.OFFER_CODE.getD "NO_MATCH",
    OfferName := match_result.OFFER_NAME.getD "None",
    MatchFound := if is_match_of match_result email_content then "Yes" else "No",
    EmailContent := email_content,
    EmailSent := false }

/-- The batch loop `for idx, row in df.iterrows()` (src/app.py
lines 556-607): one result appended per input row, in input order.  The
oracles are indexed by the row position, since each row triggers its own
pair of chat calls. -/
def process_batch (mc : Nat → MatcherCall) (wc : Nat → WriterCall)
    (today : String) (rows : List CsvRow) : List ResultRow :=
  rows.enum.map (fun p => process_csv_row (mc p.1) (wc p.1) today p.1 p.2)

/-- The column projection of one row in the CSV export (src/app.py
lines 698-701); pandas renders the boolean as True/False text. -/
def export_row (r : ResultRow) : List String :=
  [r.CustomerID, r.Email, r.DateCancelled, r.CancellationReason,
   r.OfferCode, r.OfferName, r.MatchFound, if r.EmailSent then "True" else "False"]

/-- The exported table: one line per session row, in session order. -/
def export_results (rs : List ResultRow) : List (List String) :=
  rs.map export_row

/-- The filter predicate of `matched_results` (src/app.py line 640):
rows still eligible for the send-all action. -/
def unsentMatched (r : ResultRow) : Bool :=
  r.MatchFound == "Yes" && !r.EmailSent

/-- The send-all loop, src/app.py lines 640-668: every matched, not yet
sent row gets one dispatch attempt (`dispatch` abstracts
`send_email cfg transport r.Email subject r.EmailContent` returning its
success flag); on success the row flag `Email Sent` is set in place, on
failure it is left false; successes and failures are counted.  Rows not
eligible are untouched.  Returns (updated session, sent count, failed count). -/
def send_all_emails (dispatch : ResultRow → Bool) : List ResultRow → List ResultRow × Nat × Nat
  | [] => ([], 0, 0)
  | r :: rest =>
    let res := send_all_emails dispatch rest
    if unsentMatched r then
      if dispatch r then
        ({ r with EmailSent := true } :: res.1, res.2.1 + 1, res.2.2)
      else
        (r :: res.1, res.2.1, res.2.2 + 1)
    else
      (r :: res.1, res.2.1, res.2.2)

/-! Helper lemmas about the send-all loop. -/

theorem send_all_emails_fst (d : ResultRow → Bool) (rows : List ResultRow) :
    (send_all_emails d rows).1
      = rows.map (fun r => if unsentMatched r && d r then { r with EmailSent := true } else r) := by
  induction rows with
  | nil => rfl
  | cons r rest ih =>
    cases h1 : unsentMatched r with
    | false => simp [send_all_emails, h1, ih]
    | true =>
      cases h2 : d r with
      | false => simp [send_all_emails, h1, h2, ih]
      | true => simp [send_all_emails, h1, h2, ih]

theorem send_all_emails_sent_count (d : ResultRow → Bool) (rows : List ResultRow) :
    (send_all_emails d rows).2.1 = (rows.filter (fun r => unsentMatched r && d r)).length := by
  induction rows with
  | nil => rfl
  | cons r rest ih =>
    cases h1 : unsentMatched r with
    | false => simp [send_all_emails, List.filter_cons, h1, ih]
    | true =>
      cases h2 : d r with
      | false => simp [send_all_emails, List.filter_cons, h1, h2, ih]
      | true => simp [send_all_emails, List.filter_cons, h1, h2, ih]

theorem send_all_emails_failed_count (d : ResultRow → Bool) (rows : List ResultRow) :
    (send_all_emails d rows).2.2 = (rows.filter (fun r => unsentMatched r && !d r)).length := by
  induction rows with
  | nil => rfl
  | cons r rest ih =>
    cases h1 : unsentMatched r with
    | false => simp [send_all_emails, List.filter_cons, h1, ih]
    | true =>
      cases h2 : d r with
      | false => simp [send_all_emails, List.filter_cons, h1, h2, ih]
      | true => simp [send_all_emails, List.filter_cons, h1, h2, ih]

theorem send_all_emails_no_eligible (d : ResultRow → Bool) (rows : List ResultRow)
    (h : ∀ r ∈ rows, unsentMatched r = false) :
    send_all_emails d rows = (rows, 0, 0) := by
  induction rows with
  | nil => rfl
  | cons r rest ih =>
    have hr := h r (List.mem_cons_self r rest)
    have hrest : ∀ x ∈ rest, unsentMatched x = false :=
      fun x hx => h x (List.mem_cons_of_mem r hx)
    simp [send_all_emails, hr, ih hrest]

theorem send_all_emails_all_sent (d : ResultRow → Bool) (rows : List ResultRow)
    (h : ∀ r ∈ rows, unsentMatched r = true → d r = true) :
    ∀ x ∈ (send_all_emails d rows).1, unsentMatched x = false := by
  intro x hx
  rw [send_all_emails_fst] at hx
  rcases List.mem_map.mp hx with ⟨r, hr, hxr⟩
  subst hxr
  cases h1 : unsentMatched r with
  | false => simp [h1]
  | true =>
    have h2 := h r hr h1
    simp only [h1, h2, Bool.and_self, if_true]
    simp [unsentMatched]

/-- A two-row batch session used to evaluate the send-all theorems on a
concrete input: one matched unsent row, one unmatched row. -/
def sampleSession : List ResultRow := [
  { CustomerID := "CUST-001", Email := "alice@client.com", DateCancelled := "2026-10-01",
    CancellationReason := "too expensive", OfferCode := "PRICE_DISC_20",
    OfferName := "20% Discount for 6 Months", MatchFound := "Yes",
    EmailContent := "Hey Alice, here is 20% off.", EmailSent := false },
  { CustomerID := "CUST-002", Email := "bob@client.com", DateCancelled := "2026-10-02",
    CancellationReason := "moving abroad", OfferCode := "NO_MATCH",
    OfferName := "None", MatchFound := "No",
    EmailContent := "NO_MATCH", EmailSent := false }]

/-- Claim C1: the send-all action iterates exactly over the rows with
`Match Found = Yes` and `Email Sent` false, sets `Email Sent` for a row
precisely when its dispatch succeeds (leaving it false on failure), counts
successes and failures, does nothing on a session with no unsent matched
rows, and after a run whose dispatches all succeeded a second invocation
sends zero additional emails. -/
theorem sendAllMatched_idempotent (d d2 : ResultRow → Bool) (rows : List ResultRow) :
    (send_all_emails d rows).1
        = rows.map (fun r => if unsentMatched r && d r then { r with EmailSent := true } else r)
      ∧ (send_all_emails d rows).2.1 = (rows.filter (fun r => unsentMatched r && d r)).length
      ∧ (send_all_emails d rows).2.2 = (rows.filter (fun r => unsentMatched r && !d r)).length
      ∧ ((∀ r ∈ rows, unsentMatched r = false) → send_all_emails d rows = (rows, 0, 0))
      ∧ ((∀ r ∈ rows, unsentMatched r = true → d r = true) →
          send_all_emails d2 (send_all_emails d rows).1 = ((send_all_emails d rows).1, 0, 0)) := by
  refine ⟨send_all_emails_fst d rows, send_all_emails_sent_count d rows,
    send_all_emails_failed_count d rows, send_all_emails_no_eligible d rows, ?_⟩
  intro h
  exact send_all_emails_no_eligible d2 _ (send_all_emails_all_sent d rows h)

/-- Evaluation of `sendAllMatched_idempotent` on `sampleSession` with an
always-succeeding dispatch: the second invocation reports zero sends. -/
theorem sendAllMatched_idempotent_witness :
    send_all_emails (fun _ => true) (send_all_emails (fun _ => true) sampleSession).1
      = ((send_all_emails (fun _ => true) sampleSession).1, 0, 0) :=
  (sendAllMatched_idempotent (fun _ => true) (fun _ => true) sampleSession).2.2.2.2
    (by decide)

/-- A reasoning oracle that answers with a code that is not in the
catalog: nothing in `offer_matcher_agent` filters it out. -/
def fabricatingMatcher : MatcherCall := fun _ _ =>
  .ok { OFFER_CODE := some "SUPER_SECRET_50", OFFER_NAME := some "Half Off Forever",
        MATCH_REASONING := some "invented by the model" }

/-- A reasoning oracle whose call raises (timeout, service error,
malformed JSON): the `except` branch of `offer_matcher_agent` fires. -/
def failingMatcher : MatcherCall := fun _ _ => .error "Read timed out"

/-- Claim C2 counterexample: when the reasoning call succeeds with a
fabricated code, `offer_matcher_agent` returns that code unchanged, so its
output is neither the sentinel nor a catalog code.  The no-fabrication
constraint lives only in the prompt text, not in the code. -/
theorem offer_matcher_vocabulary_counterexample :
    ¬((offer_matcher_agent fabricatingMatcher "too expensive" get_offers_database).OFFER_CODE.getD "NO_MATCH" = "NO_MATCH"
      ∨ codeInCatalog ((offer_matcher_agent fabricatingMatcher "too expensive" get_offers_database).OFFER_CODE.getD "NO_MATCH") = true) := by
  decide

/-- Claim C2 (amended): the matcher returns the reasoning response
unvalidated, so its offer code is in the catalog-plus-sentinel vocabulary
exactly when the response (if any) respects that vocabulary; a failed call
yields the sentinel, which is always in the vocabulary. -/
theorem offer_matcher_vocabulary (call : MatcherCall) (reason db : String)
    (h : ∀ j, call reason db = .ok j →
      j.OFFER_CODE.getD "NO_MATCH" = "NO_MATCH"
        ∨ codeInCatalog (j.OFFER_CODE.getD "NO_MATCH") = true) :
    (offer_matcher_agent call reason db).OFFER_CODE.getD "NO_MATCH" = "NO_MATCH"
      ∨ codeInCatalog ((offer_matcher_agent call reason db).OFFER_CODE.getD "NO_MATCH") = true := by
  cases hc : call reason db with
  | ok j => simpa [offer_matcher_agent, hc] using h j hc
  | error e => simp [offer_matcher_agent, hc]

/-- Evaluation of `offer_matcher_vocabulary` at a failing call. -/
theorem offer_matcher_vocabulary_witness :
    (offer_matcher_agent failingMatcher "something vague" get_offers_database).OFFER_CODE.getD "NO_MATCH" = "NO_MATCH"
      ∨ codeInCatalog ((offer_matcher_agent failingMatcher "something vague" get_offers_database).OFFER_CODE.getD "NO_MATCH") = true :=
  offer_matcher_vocabulary failingMatcher "something vague" get_offers_database
    (fun j hj => by simp [failingMatcher] at hj)

/-- Claim C3: on a failed reasoning call the matcher returns the fixed
`NO_MATCH` object whose reasoning embeds the error text and is non-empty;
the exception never reaches the caller (the function is total and this
equation is its entire behaviour on the failure branch). -/
theorem offer_matcher_degrades_on_failure (call : MatcherCall) (reason db e : String)
    (h : call reason db = .error e) :
    offer_matcher_agent call reason db
        = { OFFER_CODE := some "NO_MATCH", OFFER_NAME := some "None",
            MATCH_REASONING := some ("Error occurred: " ++ e) }
      ∧ (offer_matcher_agent call reason db).OFFER_CODE = some "NO_MATCH"
      ∧ (offer_matcher_agent call reason db).MATCH_REASONING.getD "" ≠ "" := by
  refine ⟨by simp [offer_matcher_agent, h], by simp [offer_matcher_agent, h], ?_⟩
  simp only [offer_matcher_agent, h, Option.getD_some]
  intro heq
  have h2 := congrArg String.length heq
  rw [String.length_append] at h2
  have h3 : ("Error occurred: ").length = 16 := rfl
  have h4 : ("" : String).length = 0 := rfl
  omega

/-- Evaluation of `offer_matcher_degrades_on_failure` at a concrete
timed-out call. -/
theorem offer_matcher_degrades_on_failure_witness :
    offer_matcher_agent failingMatcher "price too high" get_offers_database
        = { OFFER_CODE := some "NO_MATCH", OFFER_NAME := some "None",
            MATCH_REASONING := some ("Error occurred: " ++ "Read timed out") }
      ∧ (offer_matcher_agent failingMatcher "price too high" get_offers_database).OFFER_CODE = some "NO_MATCH"
      ∧ (offer_matcher_agent failingMatcher "price too high" get_offers_database).MATCH_REASONING.getD "" ≠ "" :=
  offer_matcher_degrades_on_failure failingMatcher "price too high" get_offers_database
    "Read timed out" rfl

/-- A generation oracle that writes an email even though it was told the
offer is `NO_MATCH`: nothing in `email_writer_agent` prevents that. -/
def chattyWriter : WriterCall := fun _ _ _ =>
  .ok "Hi there! We would really love to keep you around."

/-- A generation oracle that follows its instructions for an unmatched
offer and replies with the literal sentinel. -/
def obedientWriter : WriterCall := fun _ _ _ => .ok "NO_MATCH"

/-- A no-match decision as the code itself produces it on the matcher
failure path (src/app.py lines 149-153). -/
def noMatchDecision : MatchResultJson :=
  { OFFER_CODE := some "NO_MATCH", OFFER_NAME := some "None",
    MATCH_REASONING := some "no offer covers relocation" }

/-- Claim C4 counterexample: for a decision whose offer code is the
sentinel, the composer still returns whatever the generation call
produced; with a non-compliant response it returns an email body, not the
sentinel.  The sentinel return is enforced by the prompt, not by code. -/
theorem email_writer_sentinel_counterexample :
    noMatchDecision.OFFER_CODE.getD "NO_MATCH" = "NO_MATCH"
      ∧ email_writer_agent chattyWriter (matched_offer_text noMatchDecision)
          "I am relocating" "carol@client.com" ≠ "NO_MATCH" := by
  exact ⟨rfl, by decide⟩

/-- Claim C4 (amended): the composer performs no branch on the decision;
it returns the generation response stripped of surrounding whitespace, and
therefore returns the sentinel exactly when the response (as its
instructions require for a `NO_MATCH` offer) strips to the literal
`NO_MATCH`. -/
theorem email_writer_sentinel (wcall : WriterCall) (matched_offer reason email s : String)
    (h : wcall matched_offer reason email = .ok s) :
    email_writer_agent wcall matched_offer reason email = pyStrip s
      ∧ (pyStrip s = "NO_MATCH" →
          email_writer_agent wcall matched_offer reason email = "NO_MATCH") := by
  refine ⟨by simp [email_writer_agent, h], ?_⟩
  intro h2
  simp [email_writer_agent, h, h2]

/-- Evaluation of `email_writer_sentinel` at a compliant response for the
no-match decision: the composer returns the sentinel. -/
theorem email_writer_sentinel_witness :
    email_writer_agent obedientWriter (matched_offer_text noMatchDecision)
        "I am relocating" "carol@client.com" = "NO_MATCH" :=
  (email_writer_sentinel obedientWriter (matched_offer_text noMatchDecision)
    "I am relocating" "carol@client.com" "NO_MATCH" rfl).2 (by decide)

/-- If the needle occurs in the appended suffix, it occurs in the whole
string. -/
theorem strContains_append_suffix (pre pat sub : String) (h : sub.data <:+: pat.data) :
    strContains (pre ++ pat) sub = true := by
  unfold strContains
  rw [String.data_append]
  exact decide_eq_true (h.trans (List.suffix_append pre.data pat.data).isInfix)

/-- Modelled from the spec: the domain of an email address, the text after
the last at-sign (the spec phrase is the sender address domain; the code
itself has no such notion). -/
def senderDomain (s : String) : String :=
  ⟨(s.data.reverse.takeWhile (fun c => c != '@')).reverse⟩

/-- Modelled from the spec: the provider domains the spec names as known. -/
def knownProviderDomains : List String :=
  ["gmail.com", "outlook.com", "hotmail.com", "yahoo.com"]

/-- A sender address whose domain is an unrecognized custom domain but
whose local part is the text gmail.com. -/
def trickyCfg : EnvConfig :=
  { SENDER_EMAIL := some "gmail.com@corp.org", SENDER_PASSWORD := some "app-password",
    SMTP_SERVER := none, SMTP_PORT := none }

/-- A relay that rejects the login, whatever the endpoint. -/
def authFailTransport : Transport := fun _ _ _ => .authError "535 bad credentials"

/-- Claim C5 counterexample: the provider check is substring containment
on the whole lowercased sender address, not a domain check.  For the
sender gmail.com@corp.org the domain corp.org is not a known provider and
no explicit server is configured, yet `send_email` resolves
smtp.gmail.com:587 and attempts delivery there (the result is the auth
failure reported by the relay, not the missing-configuration message). -/
theorem transport_resolution_counterexample :
    knownProviderDomains.contains (senderDomain "gmail.com@corp.org") = false
      ∧ isBlank trickyCfg.SMTP_SERVER = true
      ∧ resolveTransport trickyCfg "gmail.com@corp.org" = .ok ("smtp.gmail.com", 587)
      ∧ send_email trickyCfg authFailTransport "cust@client.com" "subject" "body"
          = (false, "Authentication failed: 535 bad credentials. Check your email and password. For Gmail, use an App Password. For custom domains, verify SMTP credentials.") := by
  exact ⟨by decide, rfl, rfl, rfl⟩

/-- Claim C5 (amended): an explicit SMTP_SERVER is always used (default
port 587); when none is set, provider detection is substring containment
of the provider name in the lowercased sender address, checked in the
order gmail, outlook/hotmail, yahoo - so a sender whose domain truly is
gmail.com resolves smtp.gmail.com:587, and the other providers resolve as
claimed provided no earlier provider name occurs in the address; a sender
containing no known provider name at all makes `send_email` return the
missing-transport-configuration failure without consulting the relay. -/
theorem transport_resolution (cfg : EnvConfig) (sender loc dst subject body : String) :
    (isBlank cfg.SMTP_SERVER = false →
        resolveTransport cfg sender = .ok (cfg.SMTP_SERVER.getD "", cfg.SMTP_PORT.getD 587))
  ∧ (isBlank cfg.SMTP_SERVER = true →
      strContains (pyLower sender) "gmail.com" = false →
      strContains (pyLower sender) "outlook.com" = false →
      strContains (pyLower sender) "hotmail.com" = false →
      strContains (pyLower sender) "yahoo.com" = false →
        resolveTransport cfg sender = .error (custom_domain_message sender)
        ∧ (cfg.SENDER_EMAIL = some sender → isBlank cfg.SENDER_PASSWORD = false →
            strContains dst "@" = true → strContains sender "@" = true →
            ∀ tr : Transport,
              send_email cfg tr dst subject body = (false, custom_domain_message sender)))
  ∧ (isBlank cfg.SMTP_SERVER = true → pyLower sender = loc ++ "@gmail.com" →
        resolveTransport cfg sender = .ok ("smtp.gmail.com", cfg.SMTP_PORT.getD 587))
  ∧ (isBlank cfg.SMTP_SERVER = true → pyLower sender = loc ++ "@outlook.com" →
      strContains (pyLower sender) "gmail.com" = false →
        resolveTransport cfg sender = .ok ("smtp-mail.outlook.com", cfg.SMTP_PORT.getD 587))
  ∧ (isBlank cfg.SMTP_SERVER = true → pyLower sender = loc ++ "@hotmail.com" →
      strContains (pyLower sender) "gmail.com" = false →
        resolveTransport cfg sender = .ok ("smtp-mail.outlook.com", cfg.SMTP_PORT.getD 587))
  ∧ (isBlank cfg.SMTP_SERVER = true → pyLower sender = loc ++ "@yahoo.com" →
      strContains (pyLower sender) "gmail.com" = false →
      strContains (pyLower sender) "outlook.com" = false →
      strContains (pyLower sender) "hotmail.com" = false →
        resolveTransport cfg sender = .ok ("smtp.mail.yahoo.com", cfg.SMTP_PORT.getD 587)) := by
  refine ⟨?_, ?_, ?_, ?_, ?_, ?_⟩
  · intro h
    simp [resolveTransport, h]
  · intro hb h1 h2 h3 h4
    have herr : resolveTransport cfg sender = .error (custom_domain_message sender) := by
      simp [resolveTransport, hb, h1, h2, h3, h4]
    refine ⟨herr, ?_⟩
    intro hse hpw hto hfrom tr
    have hne : sender ≠ "" := by
      intro h0
      rw [h0] at hfrom
      have : strContains "" "@" = false := by decide
      rw [this] at hfrom
      exact Bool.noConfusion hfrom
    have hblankSE : isBlank (some sender) = false := by
      simpa [isBlank] using hne
    simp [send_email, hse, hblankSE, hpw, hto, hfrom, herr]
  · intro hb hlow
    have hcont : strContains (pyLower sender) "gmail.com" = true := by
      rw [hlow]
      exact strContains_append_suffix loc "@gmail.com" "gmail.com" (by decide)
    simp [resolveTransport, hb, hcont]
  · intro hb hlow hg
    have hcont : strContains (pyLower sender) "outlook.com" = true := by
      rw [hlow]
      exact strContains_append_suffix loc "@outlook.com" "outlook.com" (by decide)
    simp [resolveTransport, hb, hg, hcont]
  · intro hb hlow hg
    have hcont : strContains (pyLower sender) "hotmail.com" = true := by
      rw [hlow]
      exact strContains_append_suffix loc "@hotmail.com" "hotmail.com" (by decide)
    simp [resolveTransport, hb, hg, hcont]
  · intro hb hlow hg ho hh
    have hcont : strContains (pyLower sender) "yahoo.com" = true := by
      rw [hlow]
      exact strContains_append_suffix loc "@yahoo.com" "yahoo.com" (by decide)
    simp [resolveTransport, hb, hg, ho, hh, hcont]

/-- A correctly configured Gmail sender. -/
def gmailCfg : EnvConfig :=
  { SENDER_EMAIL := some "team@gmail.com", SENDER_PASSWORD := some "app-password",
    SMTP_SERVER := none, SMTP_PORT := none }

/-- Evaluation of `transport_resolution` for a genuine gmail.com sender:
the inferred endpoint is smtp.gmail.com with the default port 587. -/
theorem transport_resolution_witness :
    resolveTransport gmailCfg "team@gmail.com" = .ok ("smtp.gmail.com", 587) :=
  (transport_resolution gmailCfg "team@gmail.com" "team" "x@y.com" "s" "b").2.2.1
    rfl (by decide)

/-- Appending on the right keeps the first character. -/
theorem string_head_append (s t : String) (c : Char) (h : s.data.head? = some c) :
    (s ++ t).data.head? = some c := by
  rw [String.data_append]
  cases hs : s.data with
  | nil => simp [hs] at h
  | cons a l =>
    simp [hs] at h ⊢
    exact h

/-- Strings with different first characters differ. -/
theorem ne_of_head (a b : String) (h : a.data.head? ≠ b.data.head?) : a ≠ b :=
  fun he => h (by rw [he])

/-- Claim C6: given addresses that pass validation and a resolvable
endpoint, `send_email` converts every relay outcome into a
`(success, message)` pair - an authentication failure, a protocol failure
and any other exception each yield `success = false` with their own fixed
message prefix, a missing sender configuration yields the
configuration-missing message before any relay contact, and the three
failure messages (authentication, protocol, configuration-missing) are
pairwise distinct whatever the embedded error texts are. -/
theorem send_email_failure_taxonomy (cfg : EnvConfig)
    (dst subject body e1 e2 ty msg srv : String) (prt : Nat)
    (hse : isBlank cfg.SENDER_EMAIL = false) (hpw : isBlank cfg.SENDER_PASSWORD = false)
    (hto : strContains dst "@" = true)
    (hfrom : strContains (cfg.SENDER_EMAIL.getD "") "@" = true)
    (hres : resolveTransport cfg (cfg.SENDER_EMAIL.getD "") = .ok (srv, prt)) :
    send_email cfg (fun _ _ _ => .authError e1) dst subject body
        = (false, "Authentication failed: " ++ e1 ++ ". Check your email and password. For Gmail, use an App Password. For custom domains, verify SMTP credentials.")
      ∧ send_email cfg (fun _ _ _ => .smtpError e2) dst subject body
        = (false, "SMTP error: " ++ e2 ++ ". Check SMTP_SERVER and SMTP_PORT settings.")
      ∧ send_email cfg (fun _ _ _ => .otherError ty msg) dst subject body
        = (false, "Error sending email (" ++ ty ++ "): " ++ msg ++ ". Verify your email configuration in .env file.")
      ∧ (∀ cfg2 : EnvConfig, ∀ tr : Transport, isBlank cfg2.SENDER_EMAIL = true →
          send_email cfg2 tr dst subject body
            = (false, "Email configuration missing. Please set SENDER_EMAIL and SENDER_PASSWORD in .env file"))
      ∧ ("Authentication failed: " ++ e1 ++ ". Check your email and password. For Gmail, use an App Password. For custom domains, verify SMTP credentials.")
          ≠ ("SMTP error: " ++ e2 ++ ". Check SMTP_SERVER and SMTP_PORT settings.")
      ∧ ("Authentication failed: " ++ e1 ++ ". Check your email and password. For Gmail, use an App Password. For custom domains, verify SMTP credentials.")
          ≠ "Email configuration missing. Please set SENDER_EMAIL and SENDER_PASSWORD in .env file"
      ∧ ("SMTP error: " ++ e2 ++ ". Check SMTP_SERVER and SMTP_PORT settings.")
          ≠ "Email configuration missing. Please set SENDER_EMAIL and SENDER_PASSWORD in .env file" := by
  have hauth : (("Authentication failed: " ++ e1) ++ ". Check your email and password. For Gmail, use an App Password. For custom domains, verify SMTP credentials.").data.head? = some 'A' :=
    string_head_append _ _ 'A' (string_head_append _ e1 'A' (by decide))
  have hsmtp : (("SMTP error: " ++ e2) ++ ". Check SMTP_SERVER and SMTP_PORT settings.").data.head? = some 'S' :=
    string_head_append _ _ 'S' (string_head_append _ e2 'S' (by decide))
  refine ⟨?_, ?_, ?_, ?_, ?_, ?_, ?_⟩
  · simp [send_email, hse, hpw, hto, hfrom, hres]
  · simp [send_email, hse, hpw, hto, hfrom, hres]
  · simp [send_email, hse, hpw, hto, hfrom, hres]
  · intro cfg2 tr h2
    simp [send_email, h2]
  · apply ne_of_head
    rw [hauth, hsmtp]
    decide
  · apply ne_of_head
    rw [hauth]
    decide
  · apply ne_of_head
    rw [hsmtp]
    decide

/-- Evaluation of `send_email_failure_taxonomy` for the Gmail
configuration: a rejected login comes back as a result value carrying the
authentication-failure message. -/
theorem send_email_failure_taxonomy_witness :
    send_email gmailCfg (fun _ _ _ => .authError "535 denied") "cust@client.com" "subj" "body"
      = (false, "Authentication failed: " ++ "535 denied" ++ ". Check your email and password. For Gmail, use an App Password. For custom domains, verify SMTP credentials.") :=
  (send_email_failure_taxonomy gmailCfg "cust@client.com" "subj" "body"
    "535 denied" "452 full" "OSError" "network down" "smtp.gmail.com" 587
    (by decide) (by decide) (by decide) (by decide) rfl).1

/-- Claim C7: the batch run yields exactly one result row per input row,
the row at position i is computed from the input row at position i (order
preserved), and the CSV export has one line per session row at the same
position. -/
theorem batch_preserves_order (mc : Nat → MatcherCall) (wc : Nat → WriterCall)
    (today : String) (rows : List CsvRow) (i : Nat) :
    (process_batch mc wc today rows).length = rows.length
  ∧ (process_batch mc wc today rows)[i]?
      = (rows[i]?).map (process_csv_row (mc i) (wc i) today i)
  ∧ (export_results (process_batch mc wc today rows)).length = rows.length
  ∧ (export_results (process_batch mc wc today rows))[i]?
      = ((process_batch mc wc today rows)[i]?).map export_row := by
  refine ⟨?_, ?_, ?_, ?_⟩
  · simp [process_batch, List.enum_length]
  · simp [process_batch, List.getElem?_map, List.getElem?_enum, Option.map_map]
    rfl
  · simp [process_batch, export_results, List.enum_length]
  · simp [export_results, List.getElem?_map]

/-- Claim C8: submitting the single-record form again with a non-empty
reason resets `email_sent` and `team_notification_sent` to false and
replaces `processed_data` with the new workflow result, independently of
whatever the previous session state was. -/
theorem rerun_resets_flags (st st2 : SessionState) (mcall : MatcherCall) (wcall : WriterCall)
    (customer_id customer_email reason date : String) (h : reason ≠ "") :
    (handle_submission st true mcall wcall customer_id customer_email reason date).email_sent = false
  ∧ (handle_submission st true mcall wcall customer_id customer_email reason date).team_notification_sent = false
  ∧ (handle_submission st true mcall wcall customer_id customer_email reason date).processed_data.isSome = true
  ∧ handle_submission st true mcall wcall customer_id customer_email reason date
      = handle_submission st2 true mcall wcall customer_id customer_email reason date := by
  have hb : (reason != "") = true := bne_iff_ne.mpr h
  exact ⟨by simp [handle_submission, hb], by simp [handle_submission, hb],
    by simp [handle_submission, hb], by simp [handle_submission, hb]⟩

/-- A session state in which everything was already sent: the re-run must
clear it. -/
def dirtyState : SessionState :=
  { processed_data := some
      { customer_id := "OLD", customer_email := "old@client.com",
        cancellation_reason := "old reason", date_cancelled := "2026-01-01",
        match_result := noMatchDecision, email_content := "NO_MATCH", is_match := false },
    email_sent := true, team_notification_sent := true }

/-- Evaluation of `rerun_resets_flags` on a state whose flags are both
true: after re-submission both flags are false again. -/
theorem rerun_resets_flags_witness :
    (handle_submission dirtyState true failingMatcher obedientWriter
        "CUST-001" "alice@client.com" "too expensive" "2026-10-02").email_sent = false
  ∧ (handle_submission dirtyState true failingMatcher obedientWriter
        "CUST-001" "alice@client.com" "too expensive" "2026-10-02").team_notification_sent = false :=
  ⟨(rerun_resets_flags dirtyState dirtyState failingMatcher obedientWriter
      "CUST-001" "alice@client.com" "too expensive" "2026-10-02" (by decide)).1,
   (rerun_resets_flags dirtyState dirtyState failingMatcher obedientWriter
      "CUST-001" "alice@client.com" "too expensive" "2026-10-02" (by decide)).2.1⟩

/-- Claim C9: the escalation mail is addressed to the configured sender
address itself (`SENDER_EMAIL` is the team address), and with no sender
configured the notifier returns the failure pair without consulting the
relay at all (its result does not depend on the transport). -/
theorem team_notification_uses_sender (cfg : EnvConfig) (tr tr2 : Transport)
    (customer_id customer_email date_cancelled : String) :
    (isBlank cfg.SENDER_EMAIL = true →
        send_team_notification cfg tr customer_id customer_email date_cancelled
          = (false, "SENDER_EMAIL not set in .env file")
        ∧ send_team_notification cfg tr customer_id customer_email date_cancelled
          = send_team_notification cfg tr2 customer_id customer_email date_cancelled)
  ∧ (isBlank cfg.SENDER_EMAIL = false →
      send_team_notification cfg tr customer_id customer_email date_cancelled
        = send_email cfg tr (cfg.SENDER_EMAIL.getD "")
            "Manual Review Required - Customer Cancellation"
            (team_notification_body customer_id customer_email date_cancelled)) := by
  constructor
  · intro h
    constructor <;> simp [send_team_notification, h]
  · intro h
    simp [send_team_notification, h]

/-- A configuration with no sender address at all. -/
def noSenderCfg : EnvConfig :=
  { SENDER_EMAIL := none, SENDER_PASSWORD := none, SMTP_SERVER := none, SMTP_PORT := none }

/-- Evaluation of `team_notification_uses_sender` with `SENDER_EMAIL`
unset: the notifier fails without dispatching. -/
theorem team_notification_uses_sender_witness :
    send_team_notification noSenderCfg authFailTransport
        "CUST-001" "alice@client.com" "2026-10-01"
      = (false, "SENDER_EMAIL not set in .env file") :=
  ((team_notification_uses_sender noSenderCfg authFailTransport (fun _ _ _ => .sent [])
      "CUST-001" "alice@client.com" "2026-10-01").1 rfl).1

/-- Claim C10: in both the batch path and the single-record path the
composer is invoked for every processed record, with the matched-offer
argument always the concatenation of the OFFER_CODE and OFFER_NAME fields
separated by a dash; on a no-match decision that argument is the text
`NO_MATCH - None`, which differs from the bare sentinel. -/
theorem composer_receives_offer_text (mcall : MatcherCall) (wcall : WriterCall)
    (today : String) (idx : Nat) (row : CsvRow) (st : SessionState)
    (cid cemail reason date : String) (h : reason ≠ "") :
    (process_csv_row mcall wcall today idx row).EmailContent
      = email_writer_agent wcall
          (matched_offer_text
            (offer_matcher_agent mcall (pyStrip row.CancellationReason) get_offers_database))
          (pyStrip row.CancellationReason) (pyStrip row.Email)
  ∧ ((handle_submission st true mcall wcall cid cemail reason date).processed_data.map
        ProcessedData.email_content)
      = some (email_writer_agent wcall
          (matched_offer_text (offer_matcher_agent mcall reason get_offers_database))
          reason cemail)
  ∧ (∀ m : MatchResultJson, m.OFFER_CODE = some "NO_MATCH" →
      (m.OFFER_NAME = some "None" ∨ m.OFFER_NAME = none) →
      matched_offer_text m = "NO_MATCH - None")
  ∧ ("NO_MATCH - None" : String) ≠ "NO_MATCH" := by
  have hb : (reason != "") = true := bne_iff_ne.mpr h
  refine ⟨rfl, by simp [handle_submission, hb], ?_, by decide⟩
  intro m h1 h2
  have hdef : matched_offer_text m
      = m.OFFER_CODE.getD "None" ++ " - " ++ m.OFFER_NAME.getD "None" := rfl
  rcases h2 with h2 | h2 <;> rw [hdef, h1, h2] <;> decide

/-- Evaluation of `composer_receives_offer_text` at the no-match decision
the failure path produces: the composer argument is `NO_MATCH - None`. -/
theorem composer_receives_offer_text_witness :
    matched_offer_text noMatchDecision = "NO_MATCH - None"
  ∧ ("NO_MATCH - None" : String) ≠ "NO_MATCH" :=
  ⟨(composer_receives_offer_text failingMatcher obedientWriter "2026-10-12" 0
      { Email := "alice@client.com", CancellationReason := "too expensive",
        CustomerID := none, DateCancelled := none } dirtyState
      "CUST-001" "alice@client.com" "too expensive" "2026-10-12" (by decide)).2.2.1
      noMatchDecision rfl (Or.inl rfl),
   (composer_receives_offer_text failingMatcher obedientWriter "2026-10-12" 0
      { Email := "alice@client.com", CancellationReason := "too expensive",
        CustomerID := none, DateCancelled := none } dirtyState
      "CUST-001" "alice@client.com" "too expensive" "2026-10-12" (by decide)).2.2.2⟩

end CustomerRetention
